import Mathlib

/-!
Verification of the OAuth2 server wrapper and the GraphQL Application type
of the opencollective API.

Shallow embedding of:
  - `src/server/lib/oauth/index.ts` — the CustomTokenHandler JWT encoding,
    the CustomOAuth2Server option merge, the three Express middlewares, and
    the shared response and error handlers.
  - `src/unnamed/part_000` — the GraphQL `Application` object type with its
    owner-gated field resolvers and the derived `oauthAuthorization` field.

External collaborators that are referenced but whose code is not under
`src/` (the auth constants module, the config module, the `jsonwebtoken`
library, the `idEncode` helper, the Sequelize store) are modelled as
abstract constants and record constructors, each marked in its doc comment.
-/

namespace OCOAuth

/-! ### Constants from external modules -/

/-- Modelled from the spec: `auth.TOKEN_EXPIRATION_SESSION` from
`src/server/lib/auth` (not included under src). The source comment next to
its use in the token signer says 90 days; the exact value is irrelevant to
the claims, only that it is a single process-wide constant. -/
def TOKEN_EXPIRATION_SESSION : Nat := 90 * 24 * 60 * 60

/-- Modelled from the spec: `auth.ALGORITHM` from `src/server/lib/auth`,
the JWT signing algorithm constant. -/
def ALGORITHM : String := "HS256"

/-- Modelled from the spec: `auth.KID` from `src/server/lib/auth`, the
key-id identifying the signing key to support rotation. -/
def KID : String := "opencollective-kid"

/-- Modelled from the spec: `config.keys.opencollective.jwtSecret`, the
process-wide signing key loaded from configuration. -/
def jwtSecret : String := "process-wide-jwt-secret"

/-! ### Token Codec: CustomTokenHandler.getTokenType -/

/-- The claims object passed as first argument to `jwt.sign`:
`\x7b access_token: model.accessToken \x7d`. -/
structure JwtPayload where
  access_token : String
deriving Repr, DecidableEq

/-- The `header` option of `jwt.sign`: `\x7b kid: auth.KID \x7d`. -/
structure JwtHeader where
  kid : String
deriving Repr, DecidableEq

/-- A signed JWT, determined by the payload, the key and the signing
options given to `jwt.sign`. -/
structure SignedJwt where
  payload : JwtPayload
  secret : String
  expiresIn : Nat
  subject : String
  algorithm : String
  header : JwtHeader
deriving Repr, DecidableEq

/-- Modelled from the spec: `jwt.sign` from the `jsonwebtoken` library,
abstracted as the record of its inputs — the signed token string is a
function of the payload, the signing key and the options. -/
def jwtSign (payload : JwtPayload) (secret : String) (expiresIn : Nat)
    (subject : String) (algorithm : String) (header : JwtHeader) : SignedJwt :=
  ⟨payload, secret, expiresIn, subject, algorithm, header⟩

/-- The principal attached to an access-token record (`model.user`). -/
structure TokenUser where
  id : Nat
deriving Repr, DecidableEq

/-- The access-token record passed to `getTokenType` by the token handler:
carries the opaque `accessToken` id and the `user` principal. -/
structure AccessTokenRecord where
  accessToken : String
  user : TokenUser
deriving Repr, DecidableEq

/-- `CustomTokenHandler.getTokenType` from `src/server/lib/oauth/index.ts`:
returns a bearer-token object whose string value is
`jwt.sign(\x7b access_token \x7d, jwtSecret, \x7b expiresIn, subject, algorithm, header \x7d)`. -/
def getTokenType (model : AccessTokenRecord) : SignedJwt :=
  jwtSign ⟨model.accessToken⟩ jwtSecret TOKEN_EXPIRATION_SESSION
    (toString model.user.id) ALGORITHM ⟨KID⟩

/-! ### CustomOAuth2Server.token: option merge -/

/-- The option bag accepted by `CustomOAuth2Server.token` and by the server
constructor; absent fields are `none` (undefined in JS). -/
structure TokenOptions where
  accessTokenLifetime : Option Nat := none
  refreshTokenLifetime : Option Nat := none
  allowExtendedTokenAttributes : Option Bool := none
  requireClientAuthentication : Option (List (String × Bool)) := none
deriving Repr, DecidableEq

/-- Lodash `assign(a, b)` restricted to this option bag: fields defined in
`b` override fields of `a`. -/
def assignOptions (a b : TokenOptions) : TokenOptions where
  accessTokenLifetime := b.accessTokenLifetime.orElse fun _ => a.accessTokenLifetime
  refreshTokenLifetime := b.refreshTokenLifetime.orElse fun _ => a.refreshTokenLifetime
  allowExtendedTokenAttributes :=
    b.allowExtendedTokenAttributes.orElse fun _ => a.allowExtendedTokenAttributes
  requireClientAuthentication :=
    b.requireClientAuthentication.orElse fun _ => a.requireClientAuthentication

/-- The defaults object built inside `CustomOAuth2Server.token`. -/
def defaultTokenOptions : TokenOptions where
  accessTokenLifetime := some TOKEN_EXPIRATION_SESSION
  refreshTokenLifetime := some (60 * 60 * 24 * 365)
  allowExtendedTokenAttributes := some false
  requireClientAuthentication := some []

/-- The effective options of a token call:
`assign(defaults, this.options, options)` — per-call options take
precedence over server-construction options over the defaults. -/
def effectiveOptions (serverOpts callOpts : TokenOptions) : TokenOptions :=
  assignOptions (assignOptions defaultTokenOptions serverOpts) callOpts

/-- `CustomOAuth2Server.token`, reduced to the data relevant here: merges
the options and hands them to a `CustomTokenHandler`, whose issued signed
token comes from `getTokenType` (which ignores the merged lifetimes).
Returns the effective options paired with the signed token issued for the
given access-token record. -/
def serverToken (serverOpts callOpts : TokenOptions)
    (model : AccessTokenRecord) : TokenOptions × SignedJwt :=
  (effectiveOptions serverOpts callOpts, getTokenType model)

/-! ### Transport layer: Res, handleResponse, handleError -/

/-- The body written by `res.send`: nothing (`res.send()`), the JSON error
object, or the raw protocol-response body. -/
inductive SentBody
  | empty : SentBody
  | jsonError (error : String) (error_description : String) : SentBody
  | raw (s : String) : SentBody
deriving Repr, DecidableEq

/-- The observable state of an Express response object: headers written so
far, the status set, the body sent, and a redirect target if
`res.redirect` was called. -/
structure Res where
  headers : List (String × String) := []
  status : Option Nat := none
  body : Option SentBody := none
  redirectedTo : Option String := none
deriving Repr, DecidableEq

/-- `res.set(headers)`: writes every header of the given set. -/
def resSet (res : Res) (hs : List (String × String)) : Res :=
  { res with headers := res.headers ++ hs }

/-- A protocol-neutral response produced by the oauth2-server engine. -/
structure ProtoResponse where
  status : Nat
  headers : List (String × String)
  body : String
deriving Repr, DecidableEq

/-- `response.headers.location`: lookup of the `location` key in the
header object. -/
def lookupHeader (hs : List (String × String)) (k : String) : Option String :=
  (hs.find? fun p => p.1 == k).map Prod.snd

/-- `delete response.headers.location`: removal of the `location` key from
the header object. -/
def removeHeader (hs : List (String × String)) (k : String) :
    List (String × String) :=
  hs.filter fun p => p.1 != k

/-- `handleResponse` from `src/server/lib/oauth/index.ts`: a 302 protocol
response has its location header extracted and deleted, the remaining
headers are written and a redirect is issued; any other response is
written as headers, status and body. -/
def handleResponse (res : Res) (response : ProtoResponse) : Res :=
  if response.status = 302 then
    let location := lookupHeader response.headers "location"
    let res := resSet res (removeHeader response.headers "location")
    { res with redirectedTo := location }
  else
    let res := resSet res response.headers
    { res with status := some response.status, body := some (.raw response.body) }

/-- An oauth2-server error as observed by `handleError`: its HTTP `code`,
`name`, `message`, and whether it is an `UnauthorizedRequestError`
(the `instanceof` test). -/
structure OAuthErrorE where
  code : Nat
  name : String
  message : String
  isUnauthorizedRequest : Bool
deriving Repr, DecidableEq

/-- Modelled from the spec: the `UnauthorizedRequestError` constructor of
the oauth2-server library — HTTP code 401, name `unauthorized_request`. -/
def unauthorizedRequestError (message : String) : OAuthErrorE :=
  ⟨401, "unauthorized_request", message, true⟩

/-- `handleError` from `src/server/lib/oauth/index.ts`. Returns the final
response state together with the error passed to `next`, if any. With
`useErrorHandler` the error is delegated untouched; otherwise the boundary
writes the protocol-response headers (when a response exists), the error
code as status, and either the bearer challenge with an empty body (for
`UnauthorizedRequestError`) or the JSON error body. -/
def handleError (useErrorHandler : Bool) (e : OAuthErrorE) (res : Res)
    (response : Option ProtoResponse) : Res × Option OAuthErrorE :=
  if useErrorHandler then
    (res, some e)
  else
    let res := match response with
      | some r => resSet res r.headers
      | none => res
    let res := { res with status := some e.code }
    if e.isUnauthorizedRequest then
      ({ resSet res [("WWW-Authenticate", "Bearer realm=\"service\"")] with
          body := some .empty }, none)
    else
      ({ res with body := some (.jsonError e.name e.message) }, none)

/-! ### OAuthServer construction and middleware success paths -/

/-- JS truthiness normalization `x ? true : false` applied to the
`useErrorHandler` and `continueMiddleware` options (absent = false). -/
def normalizeFlag (o : Option Bool) : Bool :=
  match o with
  | some b => b
  | none => false

/-- The state held by a constructed `OAuthServer`. -/
structure OAuthServerState where
  useErrorHandler : Bool
  continueMiddleware : Bool
deriving Repr, DecidableEq

/-- The `OAuthServer` constructor: requires a model, then normalizes the
two boolean options and stores them; everything else goes to the engine. -/
def mkOAuthServer (hasModel : Bool) (useErrorHandlerOpt continueMiddlewareOpt : Option Bool) :
    Option OAuthServerState :=
  if hasModel then
    some ⟨normalizeFlag useErrorHandlerOpt, normalizeFlag continueMiddlewareOpt⟩
  else
    none

/-- The observable outcome of a middleware success path: the final
response state, whether `res.locals.oauth` was set, whether `next` was
called, and whether the middleware wrote the protocol response itself. -/
structure MwOutcome where
  res : Res
  localsSet : Bool
  nextCalled : Bool
  responseWritten : Bool
deriving Repr, DecidableEq

/-- Success path of `OAuthServer.prototype.authenticate` middleware:
stores the token in `res.locals` and calls `next()` unconditionally; it
never writes the response itself. -/
def authenticateMwSuccess (continueMiddleware : Bool) (res : Res) : MwOutcome :=
  { res := res, localsSet := true, nextCalled := true, responseWritten := false }

/-- Success path of `OAuthServer.prototype.authorize` middleware: stores
the code in `res.locals`, calls `next()` only when `continueMiddleware`,
then always runs `handleResponse` on the protocol response. -/
def authorizeMwSuccess (continueMiddleware : Bool) (res : Res)
    (response : ProtoResponse) : MwOutcome :=
  { res := handleResponse res response, localsSet := true,
    nextCalled := continueMiddleware, responseWritten := true }

/-- Success path of `OAuthServer.prototype.token` middleware: identical
control flow to `authorize` — locals, conditional `next()`, then always
`handleResponse`. -/
def tokenMwSuccess (continueMiddleware : Bool) (res : Res)
    (response : ProtoResponse) : MwOutcome :=
  { res := handleResponse res response, localsSet := true,
    nextCalled := continueMiddleware, responseWritten := true }

/-! ### authorizeAuthenticateHandler and the authorize pipeline -/

/-- The authenticated principal on an inbound request (`req.remoteUser`),
with its linked account (`CollectiveId`). -/
structure RemoteUser where
  id : Nat
  CollectiveId : Nat
deriving Repr, DecidableEq

/-- An inbound request as the handlers see it. -/
structure GqlReq where
  remoteUser : Option RemoteUser
deriving Repr, DecidableEq

/-- `authorizeAuthenticateHandler.handle` from
`src/server/lib/oauth/index.ts`: throws `UnauthorizedRequestError` when no
`remoteUser` is attached, otherwise returns the principal. -/
def authorizeAuthenticateHandle (req : GqlReq) : Except OAuthErrorE RemoteUser :=
  match req.remoteUser with
  | none => .error (unauthorizedRequestError "You must be signed in")
  | some u => .ok u

/-- An authorization code bound to a client, a principal and a redirect
URI. -/
structure AuthCode where
  code : String
  clientId : String
  userId : Nat
  redirectUri : String
deriving Repr, DecidableEq

/-- Modelled from the spec: the Grant Engine authorize operation (inside
the oauth2-server library, not under src) first runs the configured
authenticate handler; only when it succeeds does it generate, persist and
return an authorization code, so a failing handler leaves the store
untouched. -/
def authorizeOp (req : GqlReq) (store : List AuthCode) (newCode : AuthCode) :
    Except OAuthErrorE AuthCode × List AuthCode :=
  match authorizeAuthenticateHandle req with
  | .error e => (.error e, store)
  | .ok _ => (.ok newCode, newCode :: store)

/-! ### GraphQL Application type (src/unnamed/part_000) -/

/-- An Application row as the resolvers see it. -/
structure ApplicationRec where
  id : Nat
  type : String
  name : String
  description : String
  apiKey : String
  clientId : String
  clientSecret : String
  callbackUrl : String
  CollectiveId : Nat
deriving Repr, DecidableEq

/-- Modelled from the spec: `idEncode` from the identifiers module (not
under src) — encodes a numeric database id under a named identifier
namespace, abstracted as the pairing of namespace and number. -/
def idEncode (id : Nat) (ns : String) : String :=
  ns ++ "-" ++ toString id

/-- The `id` field resolver: `idEncode(order.id, 'order')`. -/
def applicationIdResolve (order : ApplicationRec) : String :=
  idEncode order.id "order"

/-- The `legacyId` field resolver: the raw numeric id. -/
def applicationLegacyIdResolve (order : ApplicationRec) : Nat :=
  order.id

/-- The owner gate shared by the four gated resolvers:
`req.remoteUser && req.remoteUser.CollectiveId === application.CollectiveId`. -/
def isOwnerReq (req : GqlReq) (application : ApplicationRec) : Bool :=
  match req.remoteUser with
  | some u => u.CollectiveId == application.CollectiveId
  | none => false

/-- The `apiKey` field resolver: the stored value for the owner, nothing
otherwise. -/
def apiKeyResolve (application : ApplicationRec) (req : GqlReq) : Option String :=
  match req.remoteUser with
  | some u =>
      if u.CollectiveId == application.CollectiveId then some application.apiKey
      else none
  | none => none

/-- The `clientId` field resolver. -/
def clientIdResolve (application : ApplicationRec) (req : GqlReq) : Option String :=
  match req.remoteUser with
  | some u =>
      if u.CollectiveId == application.CollectiveId then some application.clientId
      else none
  | none => none

/-- The `clientSecret` field resolver. -/
def clientSecretResolve (application : ApplicationRec) (req : GqlReq) : Option String :=
  match req.remoteUser with
  | some u =>
      if u.CollectiveId == application.CollectiveId then some application.clientSecret
      else none
  | none => none

/-- The `callbackUrl` field resolver. -/
def callbackUrlResolve (application : ApplicationRec) (req : GqlReq) : Option String :=
  match req.remoteUser with
  | some u =>
      if u.CollectiveId == application.CollectiveId then some application.callbackUrl
      else none
  | none => none

/-- A `UserToken` row joined with its `user` and `client` associations, as
the `oauthAuthorization` resolver reads it. Account and client references
are abstracted as numeric ids. -/
structure UserTokenRec where
  ApplicationId : Nat
  UserId : Nat
  userCollective : Nat
  client : Nat
  accessTokenExpiresAt : Nat
  createdAt : Nat
  updatedAt : Nat
deriving Repr, DecidableEq

/-- The value of the `OAuthAuthorization` object returned by the
resolver. -/
structure OAuthAuthorizationRes where
  account : Nat
  application : Nat
  expiresAt : Nat
  createdAt : Nat
  updatedAt : Nat
deriving Repr, DecidableEq

/-- `models.UserToken.findOne(\x7b where: \x7b ApplicationId, UserId \x7d \x7d)` over an
explicit store of rows. -/
def findOneUserToken (store : List UserTokenRec) (appId userId : Nat) :
    Option UserTokenRec :=
  store.find? fun t => t.ApplicationId == appId && t.UserId == userId

/-- The `oauthAuthorization` field resolver: nothing for an anonymous
requester; otherwise looks up the token bound to this application and the
requester, and when found returns the account, application and validity
window of that token. -/
def oauthAuthorizationResolve (application : ApplicationRec) (req : GqlReq)
    (store : List UserTokenRec) : Option OAuthAuthorizationRes :=
  match req.remoteUser with
  | none => none
  | some u =>
      match findOneUserToken store application.id u.id with
      | some ut =>
          some { account := ut.userCollective, application := ut.client,
                 expiresAt := ut.accessTokenExpiresAt,
                 createdAt := ut.createdAt, updatedAt := ut.updatedAt }
      | none => none

end OCOAuth

namespace OCOAuth

/-! ## Claim theorems -/

/-- Claim C1: for every access-token record, the Token Codec issue
operation returns a JWT signed with the process-wide key, carrying the
opaque access-token id as the `access_token` claim, the principal id as
string in the `subject` claim, and a key-id header identifying the
signing key. -/
theorem getTokenType_claims (m : AccessTokenRecord) :
    (getTokenType m).payload.access_token = m.accessToken ∧
    (getTokenType m).secret = jwtSecret ∧
    (getTokenType m).subject = toString m.user.id ∧
    (getTokenType m).header.kid = KID :=
  ⟨rfl, rfl, rfl, rfl⟩

/-- Claim C2: with the external-error-handler opt-out disabled, the error
boundary writes the error code as HTTP status and the JSON
error/error_description body, except for an UnauthorizedRequest error,
where it writes the bearer challenge header and an empty body; in no case
does it pass the error onward. -/
theorem handleError_boundary (e : OAuthErrorE) (res : Res)
    (response : Option ProtoResponse) :
    (handleError false e res response).1.status = some e.code ∧
    (handleError false e res response).2 = none ∧
    (e.isUnauthorizedRequest = false →
      (handleError false e res response).1.body =
        some (SentBody.jsonError e.name e.message)) ∧
    (e.isUnauthorizedRequest = true →
      (handleError false e res response).1.body = some SentBody.empty ∧
      ("WWW-Authenticate", "Bearer realm=\"service\"")
        ∈ (handleError false e res response).1.headers) := by
  cases h : e.isUnauthorizedRequest <;> cases response <;>
    simp [handleError, resSet, h]

/-- Witness for C2 at a concrete unauthorized error and a concrete
generic error. -/
theorem handleError_boundary_witness :
    (handleError false (unauthorizedRequestError "You must be signed in")
        { } none).1.body = some SentBody.empty ∧
    (handleError false ⟨400, "invalid_request", "bad", false⟩ { } none).1.body =
      some (SentBody.jsonError "invalid_request" "bad") :=
  ⟨((handleError_boundary (unauthorizedRequestError "You must be signed in")
      { } none).2.2.2 rfl).1,
   (handleError_boundary ⟨400, "invalid_request", "bad", false⟩
      { } none).2.2.1 rfl⟩

/-- Claim C9: with the useErrorHandler option enabled, a failure is
delegated to the external handler and the boundary writes nothing itself;
with the option disabled the boundary handles the error and delegates
nothing. -/
theorem useErrorHandler_delegation (e : OAuthErrorE) (res : Res)
    (response : Option ProtoResponse) :
    handleError true e res response = (res, some e) ∧
    (handleError false e res response).2 = none := by
  refine ⟨rfl, ?_⟩
  cases h : e.isUnauthorizedRequest <;> cases response <;>
    simp [handleError, resSet, h]

/-- Claim C6: a 302 protocol response has its location header extracted,
removed from the header set, the remaining headers written, and a redirect
issued instead of a status+body write; any other response is written as
headers, status and body. -/
theorem handleResponse_redirect (res : Res) (response : ProtoResponse) :
    (response.status = 302 →
      handleResponse res response =
        { res with
            headers := res.headers ++ removeHeader response.headers "location",
            redirectedTo := lookupHeader response.headers "location" }) ∧
    (response.status ≠ 302 →
      handleResponse res response =
        { res with
            headers := res.headers ++ response.headers,
            status := some response.status,
            body := some (SentBody.raw response.body) }) := by
  constructor <;> intro h <;> simp [handleResponse, resSet, h]

/-- Witness for C6 at a concrete 302 response and a concrete 200
response. -/
theorem handleResponse_redirect_witness :
    handleResponse { } ⟨302, [("location", "https://x/cb"), ("a", "b")], ""⟩ =
      { headers := [("a", "b")], redirectedTo := some "https://x/cb" } ∧
    handleResponse { } ⟨200, [("a", "b")], "ok"⟩ =
      { headers := [("a", "b")], status := some 200,
        body := some (SentBody.raw "ok") } := by
  constructor
  · have h := (handleResponse_redirect { }
      ⟨302, [("location", "https://x/cb"), ("a", "b")], ""⟩).1 rfl
    rw [h]; rfl
  · have h := (handleResponse_redirect { } ⟨200, [("a", "b")], "ok"⟩).2
      (by decide)
    rw [h]; rfl

end OCOAuth

namespace OCOAuth

/-- Claim C3: each owner-gated field resolver returns the stored value
exactly when the requester is authenticated as the owning account, and no
value otherwise; in particular a non-owner never sees the client secret or
callback URL. -/
theorem ownerGatedFields (application : ApplicationRec) (req : GqlReq) :
    apiKeyResolve application req =
      (if isOwnerReq req application then some application.apiKey else none) ∧
    clientIdResolve application req =
      (if isOwnerReq req application then some application.clientId else none) ∧
    clientSecretResolve application req =
      (if isOwnerReq req application then some application.clientSecret else none) ∧
    callbackUrlResolve application req =
      (if isOwnerReq req application then some application.callbackUrl else none) ∧
    (isOwnerReq req application = false →
      clientSecretResolve application req = none ∧
      callbackUrlResolve application req = none) := by
  cases hu : req.remoteUser with
  | none =>
      simp [apiKeyResolve, clientIdResolve, clientSecretResolve,
        callbackUrlResolve, isOwnerReq, hu]
  | some u =>
      cases hc : (u.CollectiveId == application.CollectiveId) <;>
        simp [apiKeyResolve, clientIdResolve, clientSecretResolve,
          callbackUrlResolve, isOwnerReq, hu, hc]

/-- Witness for C3: a concrete non-owner requester gets no client secret,
while the owner gets the stored value. -/
theorem ownerGatedFields_witness :
    clientSecretResolve ⟨1, "oAuth", "n", "d", "k", "ci", "cs", "cb", 10⟩
      ⟨some ⟨7, 11⟩⟩ = none ∧
    clientSecretResolve ⟨1, "oAuth", "n", "d", "k", "ci", "cs", "cb", 10⟩
      ⟨some ⟨7, 10⟩⟩ = some "cs" := by
  constructor
  · exact ((ownerGatedFields ⟨1, "oAuth", "n", "d", "k", "ci", "cs", "cb", 10⟩
      ⟨some ⟨7, 11⟩⟩).2.2.2.2 (by decide)).1
  · have h := (ownerGatedFields ⟨1, "oAuth", "n", "d", "k", "ci", "cs", "cb", 10⟩
      ⟨some ⟨7, 10⟩⟩).2.2.1
    simpa using h

/-- Claim C4: an authorize request without an authenticated principal
fails with an UnauthorizedRequest error and creates no authorization code
(the store is unchanged); with a principal present, the authenticate
handler returns that principal. -/
theorem authorize_requires_principal (req : GqlReq) (store : List AuthCode)
    (newCode : AuthCode) :
    (req.remoteUser = none →
      (authorizeOp req store newCode).1 =
        Except.error (unauthorizedRequestError "You must be signed in") ∧
      (unauthorizedRequestError "You must be signed in").isUnauthorizedRequest
        = true ∧
      (authorizeOp req store newCode).2 = store) ∧
    (∀ u, req.remoteUser = some u →
      authorizeAuthenticateHandle req = Except.ok u) := by
  constructor
  · intro h
    simp [authorizeOp, authorizeAuthenticateHandle, h,
      unauthorizedRequestError]
  · intro u h
    simp [authorizeAuthenticateHandle, h]

/-- Witness for C4: a concrete signed-out request fails and leaves the
store empty; a concrete signed-in request yields its principal. -/
theorem authorize_requires_principal_witness :
    (authorizeOp ⟨none⟩ [] ⟨"c", "abc", 42, "https://x/cb"⟩).2 = [] ∧
    authorizeAuthenticateHandle ⟨some ⟨42, 9⟩⟩ = Except.ok ⟨42, 9⟩ :=
  ⟨((authorize_requires_principal ⟨none⟩ [] ⟨"c", "abc", 42, "https://x/cb"⟩).1
      rfl).2.2,
   (authorize_requires_principal ⟨some ⟨42, 9⟩⟩ []
      ⟨"c", "abc", 42, "https://x/cb"⟩).2 ⟨42, 9⟩ rfl⟩

/-- Claim C5 counterexample: with a per-call accessTokenLifetime of 42
seconds, the effective lifetime is 42 (precedence works), yet the expiry
embedded in the issued signed token is the fixed session constant, not the
effective lifetime — so the claim as stated is false. -/
theorem tokenLifetime_not_reflected :
    (effectiveOptions { } { accessTokenLifetime := some 42 }).accessTokenLifetime
      = some 42 ∧
    (serverToken { } { accessTokenLifetime := some 42 }
        ⟨"opaque", ⟨7⟩⟩).2.expiresIn ≠
      ((effectiveOptions { } { accessTokenLifetime := some 42 }).accessTokenLifetime).getD 0 := by
  constructor
  · rfl
  · decide

/-- Claim C5 amended: the merged lifetimes obey the claimed precedence
(per-call over server-construction over built-in defaults), but the expiry
embedded in the issued signed token is always the fixed session constant,
regardless of the effective lifetime. -/
theorem tokenLifetime_precedence (serverOpts callOpts : TokenOptions)
    (m : AccessTokenRecord) :
    (effectiveOptions serverOpts callOpts).accessTokenLifetime =
      (callOpts.accessTokenLifetime.orElse fun _ =>
        serverOpts.accessTokenLifetime.orElse fun _ =>
          some TOKEN_EXPIRATION_SESSION) ∧
    (effectiveOptions serverOpts callOpts).refreshTokenLifetime =
      (callOpts.refreshTokenLifetime.orElse fun _ =>
        serverOpts.refreshTokenLifetime.orElse fun _ =>
          some (60 * 60 * 24 * 365)) ∧
    (serverToken serverOpts callOpts m).2.expiresIn = TOKEN_EXPIRATION_SESSION := by
  refine ⟨?_, ?_, rfl⟩ <;>
    cases hc : callOpts.accessTokenLifetime <;>
    cases hs : serverOpts.accessTokenLifetime <;>
    cases hc2 : callOpts.refreshTokenLifetime <;>
    cases hs2 : serverOpts.refreshTokenLifetime <;>
      simp [effectiveOptions, assignOptions, defaultTokenOptions,
        Option.orElse, hc, hs, hc2, hs2]

end OCOAuth

namespace OCOAuth

/-- Claim C7 counterexample: with continueMiddleware set to true, the
authorization middleware still writes the final response itself; with it
set to false, the authentication middleware still passes control onward
and never writes the response. So whether the middleware responds or
passes onward is not determined by the continueMiddleware option. -/
theorem continueMiddleware_not_deciding :
    (authorizeMwSuccess true { } ⟨200, [], "ok"⟩).responseWritten = true ∧
    (authenticateMwSuccess false { }).nextCalled = true ∧
    (authenticateMwSuccess false { }).responseWritten = false ∧
    (authenticateMwSuccess true { }).nextCalled =
      (authenticateMwSuccess false { }).nextCalled :=
  ⟨rfl, rfl, rfl, rfl⟩

/-- Claim C7 amended: continueMiddleware is an explicit two-valued option
normalized at construction, but it only controls whether the authorization
and token middlewares additionally invoke the downstream handler; those
two always write the protocol response themselves on success, and the
authentication middleware always passes control onward and never writes
the response, ignoring the option. -/
theorem continueMiddleware_effect (flag : Bool) (res : Res)
    (response : ProtoResponse) (o : Option Bool) (hasModel : Bool)
    (ueh : Option Bool) :
    (authenticateMwSuccess flag res).nextCalled = true ∧
    (authenticateMwSuccess flag res).responseWritten = false ∧
    (authorizeMwSuccess flag res response).responseWritten = true ∧
    (authorizeMwSuccess flag res response).nextCalled = flag ∧
    (tokenMwSuccess flag res response).responseWritten = true ∧
    (tokenMwSuccess flag res response).nextCalled = flag ∧
    (mkOAuthServer hasModel ueh o).map OAuthServerState.continueMiddleware =
      (if hasModel then some (o.getD false) else none) := by
  refine ⟨rfl, rfl, rfl, rfl, rfl, rfl, ?_⟩
  cases hasModel <;> cases o <;>
    simp [mkOAuthServer, normalizeFlag]

/-- Claim C8: for an authenticated requester, the derived session field
queries the store for the token bound to this application and that
principal; when found it returns that token holder account, application
and validity window, and nothing otherwise. -/
theorem oauthAuthorization_session (application : ApplicationRec)
    (req : GqlReq) (store : List UserTokenRec) (u : RemoteUser)
    (h : req.remoteUser = some u) :
    (findOneUserToken store application.id u.id = none →
      oauthAuthorizationResolve application req store = none) ∧
    (∀ ut, findOneUserToken store application.id u.id = some ut →
      oauthAuthorizationResolve application req store =
        some ⟨ut.userCollective, ut.client, ut.accessTokenExpiresAt,
          ut.createdAt, ut.updatedAt⟩ ∧
      ut.ApplicationId = application.id ∧ ut.UserId = u.id) := by
  constructor
  · intro hf
    simp [oauthAuthorizationResolve, h, hf]
  · intro ut hf
    refine ⟨by simp [oauthAuthorizationResolve, h, hf], ?_, ?_⟩
    · have hp := List.find?_some hf
      simp only [Bool.and_eq_true, beq_iff_eq] at hp
      exact hp.1
    · have hp := List.find?_some hf
      simp only [Bool.and_eq_true, beq_iff_eq] at hp
      exact hp.2

/-- Witness for C8 at a concrete store holding one matching token. -/
theorem oauthAuthorization_session_witness :
    oauthAuthorizationResolve ⟨5, "oAuth", "n", "d", "k", "ci", "cs", "cb", 10⟩
      ⟨some ⟨7, 10⟩⟩ [⟨5, 7, 100, 5, 999, 1, 2⟩] =
      some ⟨100, 5, 999, 1, 2⟩ :=
  ((oauthAuthorization_session ⟨5, "oAuth", "n", "d", "k", "ci", "cs", "cb", 10⟩
      ⟨some ⟨7, 10⟩⟩ [⟨5, 7, 100, 5, 999, 1, 2⟩] ⟨7, 10⟩ rfl).2
    ⟨5, 7, 100, 5, 999, 1, 2⟩ rfl).1

/-- Claim C10: the public id field resolves to the numeric database id
encoded under the order identifier namespace, the legacyId field resolves
to the raw numeric id, and the id field encodes exactly the number that
legacyId returns. -/
theorem applicationId_namespace (application : ApplicationRec) :
    applicationIdResolve application = idEncode application.id "order" ∧
    applicationLegacyIdResolve application = application.id ∧
    applicationIdResolve application =
      idEncode (applicationLegacyIdResolve application) "order" :=
  ⟨rfl, rfl, rfl⟩

end OCOAuth
